import Mathlib

/-!
Shallow embedding of the Gigabyte AORUS Waterforce hwmon driver
(src/waterforce.c, with the protocol-identical classifier also present in
src/gigabyte_waterforce.c).

Machine integers are modelled as Nat / Int with explicit truncation where the
C types force one (u8 report bytes are Fin 256; u16 stores take a mod 2^16;
jiffies timestamps are Int, with time_after modelled as strict comparison on
unwrapped counters). Fallible operations return their C int result (0 or a
negative errno) together with the state they leave behind and the list of
transport writes they issued.
-/

namespace Waterforce

/-! ### Constants, from src/waterforce.c lines 17-64 -/

def USB_PRODUCT_ID_WATERFORCE_3 : Nat := 0x7a53

def STATUS_VALIDITY : Int := 2

def FIRMWARE_F14_VER : Int := 14
def MIN_FAN_RPM : Int := 750
def LOWER_MAX_RPM : Int := 2800
def DEFAULT_MAX_RPM : Int := 3200

def WATERFORCE_TEMP_SENSOR : Nat := 0xD
def WATERFORCE_FAN_SPEED : Nat := 0x02
def WATERFORCE_PUMP_SPEED : Nat := 0x05
def WATERFORCE_FAN_DUTY : Nat := 0x08
def WATERFORCE_PUMP_DUTY : Nat := 0x09

def FIRMWARE_VER_START_OFFSET_1 : Nat := 2
def FIRMWARE_VER_START_OFFSET_2 : Nat := 3

def SET_CPU_TEMP_CMD_OFFSET : Nat := 3
def SET_RPM_SPEED_CHANNEL_OFFSET : Nat := 2
def SET_RPM_SPEED_CHANNEL_FAN : Nat := 0x0101
def SET_RPM_SPEED_CHANNEL_PUMP : Nat := 0x0402

/-- errno values used by the driver (returned negated, as in C). -/
def EINVAL : Int := 22
def ENODATA : Int := 61

/-- Command bytes: get_status_cmd = { 0x99, 0xDA }. -/
def get_status_cmd : List Nat := [0x99, 0xDA]

/-- Command bytes: get_firmware_ver_cmd = { 0x99, 0xD6 }. -/
def get_firmware_ver_cmd : List Nat := [0x99, 0xD6]

/-- set_cpu_temp_cmd_template, src/waterforce.c line 48. -/
def set_cpu_temp_cmd_template : List Nat := [0x99, 0xE0, 0, 0, 0x20, 0x05, 0x05, 0x10, 0x30]

/-- speed_cmd_offsets, src/waterforce.c line 55. -/
def speed_cmd_offsets : List Nat := [5, 8, 11, 14]

/-- set_rpm_speed_cmd_template, src/waterforce.c lines 56-58. -/
def set_rpm_speed_cmd_template : List Nat :=
  [0x99, 0xE6, 0, 0, 0, 0, 0, 0x1E, 0, 0, 0x32, 0, 0, 0x41, 0, 0]

/-! ### Data model -/

/-- A u8 report byte. -/
abbrev Byte := Fin 256

/-- An inbound report: the raw byte buffer handed to waterforce_raw_event. -/
abbrev Report := Nat → Byte

/-- The mutable per-device state of struct waterforce_data (sensor fields,
firmware version, RPM ceiling and the jiffies cache timestamp).
Array fields of the C struct are split into one Lean field per index:
temp_input 0, speed_input 0/1 (u16), duty_input 0/1 (u8). -/
structure DriverState where
  temp_input : Int
  speed_input_0 : Nat
  speed_input_1 : Nat
  duty_input_0 : Nat
  duty_input_1 : Nat
  firmware_version : Int
  max_speed_rpm : Int
  updated : Int
deriving DecidableEq, Repr

/-- The all-zero state a freshly devm_kzalloc'ed struct waterforce_data holds. -/
def zeroState : DriverState :=
  { temp_input := 0, speed_input_0 := 0, speed_input_1 := 0,
    duty_input_0 := 0, duty_input_1 := 0,
    firmware_version := 0, max_speed_rpm := 0, updated := 0 }

/-! ### Report classifier: waterforce_raw_event
(src/waterforce.c lines 336-366; identical logic in
src/gigabyte_waterforce.c lines 229-259). -/

/-- get_unaligned_le16 on two consecutive report bytes. -/
def get_unaligned_le16 (data : Report) (off : Nat) : Nat :=
  (data off).val + 256 * (data (off + 1)).val

/-- Effect of one waterforce_raw_event invocation: the state it leaves and
which completions it signalled. -/
structure RawEventEffect where
  state : DriverState
  fw_completed : Bool
  status_completed : Bool
deriving DecidableEq, Repr

/-- waterforce_raw_event: classify an inbound report and update state.
now is the current jiffies value read at the updated-refresh line. -/
def waterforce_raw_event (now : Int) (st : DriverState) (data : Report) : RawEventEffect :=
  if (data 0).val = 0x99 ∧ (data 1).val = 0xD6 then
    -- received a firmware version report
    { state := { st with
        firmware_version :=
          ((data FIRMWARE_VER_START_OFFSET_1).val * 10
            + (data FIRMWARE_VER_START_OFFSET_2).val : Int) },
      fw_completed := true, status_completed := false }
  else if ¬ ((data 0).val = 0x99 ∧ (data 1).val = 0xDA) then
    -- device returned improper data: log once and discard
    { state := st, fw_completed := false, status_completed := false }
  else
    { state := { st with
        temp_input := ((data WATERFORCE_TEMP_SENSOR).val * 1000 : Int),
        speed_input_0 := get_unaligned_le16 data WATERFORCE_FAN_SPEED % 65536,
        speed_input_1 := get_unaligned_le16 data WATERFORCE_PUMP_SPEED % 65536,
        duty_input_0 := (data WATERFORCE_FAN_DUTY).val,
        duty_input_1 := (data WATERFORCE_PUMP_DUTY).val,
        updated := now },
      fw_completed := false, status_completed := true }

/-! Concrete sample reports used to instantiate the universally quantified
theorems below. -/

/-- A sample status reply: opcode 0x99 0xDA, fan RPM 0x1234 LE at offset 2,
pump RPM 0x5678 LE at offset 5, duties 55 and 60, temperature 33. -/
def sampleStatusReport : Report := fun i =>
  if i = 0 then 0x99 else if i = 1 then 0xDA
  else if i = 2 then 0x34 else if i = 3 then 0x12
  else if i = 5 then 0x78 else if i = 6 then 0x56
  else if i = 8 then 55 else if i = 9 then 60
  else if i = 13 then 33 else 0

/-- A sample firmware-version reply: opcode 0x99 0xD6, version bytes 1 and 4. -/
def sampleFwReport : Report := fun i =>
  if i = 0 then 0x99 else if i = 1 then 0xD6
  else if i = 2 then 1 else if i = 3 then 4 else 0

/-- A sample unrecognized report. -/
def sampleBadReport : Report := fun i =>
  if i = 0 then 0xAB else if i = 1 then 0xCD else 7

/-! ### Command encoder: waterforce_set_cpu_temp and waterforce_set_fan_speed -/

/-- Read one byte of an encoded command buffer. -/
def readByte (buf : List Nat) (i : Nat) : Nat := buf.getD i 0

/-- Big-endian 16-bit read-back of two consecutive buffer bytes. -/
def get_unaligned_be16 (buf : List Nat) (i : Nat) : Nat :=
  readByte buf i * 256 + readByte buf (i + 1)

/-- put_unaligned_be16 of the u16 value v at offset off. -/
def put_unaligned_be16 (v : Nat) (buf : List Nat) (off : Nat) : List Nat :=
  (buf.set off (v / 256 % 256)).set (off + 1) (v % 256)

/-- The long-to-u16 conversion at the put_unaligned_be16 call site. -/
def toU16 (v : Int) : Nat := (v % 65536).toNat

/-- The long-to-u8 conversion at the set_cpu_temp_cmd store. -/
def toU8 (v : Int) : Nat := (v % 256).toNat

/-- waterforce_set_cpu_temp (src/waterforce.c lines 242-257): range check,
then the value becomes the byte at SET_CPU_TEMP_CMD_OFFSET of the template.
Returns the negated errno or the command buffer written to the device. -/
def waterforce_set_cpu_temp (val : Int) : Except Int (List Nat) :=
  if val < 0 ∨ val > 255 then .error (-EINVAL)
  else .ok (set_cpu_temp_cmd_template.set SET_CPU_TEMP_CMD_OFFSET (toU8 val))

/-- The transport writes waterforce_set_cpu_temp issues. -/
def waterforce_set_cpu_temp_writes (val : Int) : List (List Nat) :=
  match waterforce_set_cpu_temp val with
  | .error _ => []
  | .ok cmd => [cmd]

/-- The buffer waterforce_set_fan_speed builds (src/waterforce.c lines
267-274): the channel selector split into two bytes at offsets 2 and 3, then
the BE16 target written at each entry of speed_cmd_offsets. -/
def encode_rpm_cmd (channel : Int) (val : Int) : List Nat :=
  let cmd := set_rpm_speed_cmd_template
  let cmd := cmd.set (SET_RPM_SPEED_CHANNEL_OFFSET + 1)
      (if channel = 0 then SET_RPM_SPEED_CHANNEL_FAN % 256
       else SET_RPM_SPEED_CHANNEL_PUMP % 256)
  let cmd := cmd.set SET_RPM_SPEED_CHANNEL_OFFSET
      (if channel = 0 then SET_RPM_SPEED_CHANNEL_FAN / 256
       else SET_RPM_SPEED_CHANNEL_PUMP / 256)
  speed_cmd_offsets.foldl (fun b off => put_unaligned_be16 (toU16 val) b off) cmd

/-- waterforce_set_fan_speed (src/waterforce.c lines 259-280): range check
against MIN_FAN_RPM and the resolved max_speed_rpm, then encode and write. -/
def waterforce_set_fan_speed (max_speed_rpm : Int) (channel : Int) (val : Int) :
    Except Int (List Nat) :=
  if val < MIN_FAN_RPM ∨ val > max_speed_rpm then .error (-EINVAL)
  else .ok (encode_rpm_cmd channel val)

/-- The transport writes waterforce_set_fan_speed issues. -/
def waterforce_set_fan_speed_writes (max_speed_rpm channel val : Int) : List (List Nat) :=
  match waterforce_set_fan_speed max_speed_rpm channel val with
  | .error _ => []
  | .ok cmd => [cmd]

/-! ### Step ordering inside the status branch of waterforce_raw_event -/

/-- The primitive steps of the status branch, one per source statement
(src/waterforce.c lines 355-363; src/gigabyte_waterforce.c lines 248-256). -/
inductive ClassifierAction
  | writeTempInput
  | writeFanSpeed
  | writePumpSpeed
  | writeFanDuty
  | writePumpDuty
  | signalStatus
  | writeUpdated
deriving DecidableEq, Repr

/-- The program order of the status branch: the five snapshot stores, then
the complete() call on the status completion, then the updated = jiffies
timestamp refresh. -/
def statusBranchProgram : List ClassifierAction :=
  [.writeTempInput, .writeFanSpeed, .writePumpSpeed, .writeFanDuty, .writePumpDuty,
   .signalStatus, .writeUpdated]

/-- An observation of the classifier mid-branch: the driver state plus whether
the status completion has been signalled yet. -/
structure ClassifierObs where
  state : DriverState
  signalled : Bool
deriving DecidableEq, Repr

/-- Effect of one primitive step of the status branch. -/
def applyClassifierAction (now : Int) (data : Report) (o : ClassifierObs) :
    ClassifierAction → ClassifierObs
  | .writeTempInput =>
      { o with state :=
          { o.state with temp_input := ((data WATERFORCE_TEMP_SENSOR).val * 1000 : Int) } }
  | .writeFanSpeed =>
      { o with state :=
          { o.state with speed_input_0 := get_unaligned_le16 data WATERFORCE_FAN_SPEED % 65536 } }
  | .writePumpSpeed =>
      { o with state :=
          { o.state with speed_input_1 := get_unaligned_le16 data WATERFORCE_PUMP_SPEED % 65536 } }
  | .writeFanDuty =>
      { o with state := { o.state with duty_input_0 := (data WATERFORCE_FAN_DUTY).val } }
  | .writePumpDuty =>
      { o with state := { o.state with duty_input_1 := (data WATERFORCE_PUMP_DUTY).val } }
  | .signalStatus => { o with signalled := true }
  | .writeUpdated => { o with state := { o.state with updated := now } }

/-- Run a list of status-branch steps in program order. -/
def runClassifier (now : Int) (data : Report) (o : ClassifierObs)
    (l : List ClassifierAction) : ClassifierObs :=
  l.foldl (applyClassifierAction now data) o

/-- The steps executed up to and including the completion signal. -/
def stepsUpToSignal : List ClassifierAction :=
  statusBranchProgram.takeWhile (fun a => a != ClassifierAction.signalStatus)
    ++ [ClassifierAction.signalStatus]

/-- What a reader woken by the status signal can observe at the moment the
signal is issued: the effect of the steps up to and including it. -/
def obsAtStatusSignal (now : Int) (data : Report) (st : DriverState) : ClassifierObs :=
  runClassifier now data { state := st, signalled := false } stepsUpToSignal

/-! ### Sensor cache, correlator and the blocking request paths -/

/-- time_after(a, b) on unwrapped jiffies counters. -/
def time_after (a b : Int) : Bool := decide (b < a)

/-- The staleness test at the top of waterforce_read (src/waterforce.c line
179), parameterized by the kernel tick rate HZ. -/
def cacheExpired (HZ now updated : Int) : Bool :=
  time_after now (updated + STATUS_VALIDITY * HZ)

/-- The cache timestamp waterforce_probe installs (src/waterforce.c line 415):
STATUS_VALIDITY seconds in the past. -/
def probeInitUpdated (HZ now : Int) : Int := now - STATUS_VALIDITY * HZ

/-- A completion object: done is set by complete() and cleared by
reinit_completion(). -/
structure Completion where
  done : Bool
deriving DecidableEq, Repr

/-- reinit_completion: discard any stale signal. -/
def reinit_completion (_c : Completion) : Completion := { done := false }

/-- The environment one blocking request runs against: the int result the
hid_hw_output_report transport write returns, and the inbound report (if any)
the device delivers before the 2-second wait expires. -/
structure Env where
  writeRet : Int
  reply : Option Report

/-- Result of a blocking request (waterforce_get_status or
waterforce_get_fw_ver): the returned int, the driver state and status
completion after the call, and the transport writes issued. -/
structure RequestResult where
  ret : Int
  state : DriverState
  completion : Completion
  writes : List (List Nat)
deriving DecidableEq, Repr

/-- waterforce_get_status (src/waterforce.c lines 112-128): re-arm the status
completion, send get_status_cmd, then wait up to STATUS_VALIDITY seconds for
waterforce_raw_event to signal the status completion. now is the jiffies
value at which a delivered reply is processed. -/
def waterforce_get_status (now : Int) (st : DriverState) (c : Completion)
    (env : Env) : RequestResult :=
  let c := reinit_completion c
  if env.writeRet < 0 then
    { ret := env.writeRet, state := st, completion := c, writes := [get_status_cmd] }
  else
    match env.reply with
    | none =>
        { ret := -ENODATA, state := st, completion := c, writes := [get_status_cmd] }
    | some data =>
        let eff := waterforce_raw_event now st data
        let c : Completion := { done := c.done || eff.status_completed }
        if c.done then
          { ret := 0, state := eff.state, completion := c, writes := [get_status_cmd] }
        else
          { ret := -ENODATA, state := eff.state, completion := c, writes := [get_status_cmd] }

/-- waterforce_get_fw_ver (src/waterforce.c lines 226-240): send
get_firmware_ver_cmd and wait for waterforce_raw_event to signal the firmware
completion. -/
def waterforce_get_fw_ver (now : Int) (st : DriverState) (env : Env) : RequestResult :=
  if env.writeRet < 0 then
    { ret := env.writeRet, state := st, completion := { done := false },
      writes := [get_firmware_ver_cmd] }
  else
    match env.reply with
    | none =>
        { ret := -ENODATA, state := st, completion := { done := false },
          writes := [get_firmware_ver_cmd] }
    | some data =>
        let eff := waterforce_raw_event now st data
        if eff.fw_completed then
          { ret := 0, state := eff.state, completion := { done := true },
            writes := [get_firmware_ver_cmd] }
        else
          { ret := -ENODATA, state := eff.state, completion := { done := false },
            writes := [get_firmware_ver_cmd] }

/-- The hwmon sensor types the driver serves in waterforce_read. -/
inductive SensorType
  | temp
  | fan
  | pwm
deriving DecidableEq, Repr

/-- DIV_ROUND_CLOSEST on the nonnegative duty-to-pwm conversion. -/
def DIV_ROUND_CLOSEST (x d : Nat) : Nat := (x + d / 2) / d

/-- The value switch at the bottom of waterforce_read (lines 186-204).
temp_input has a single readable element, so the channel is ignored there;
pwm serves the duty scaled from 0-100 to 0-255. -/
def readVal (st : DriverState) : SensorType → Nat → Int
  | .temp, _ => st.temp_input
  | .fan, c => if c = 0 then st.speed_input_0 else st.speed_input_1
  | .pwm, c =>
      DIV_ROUND_CLOSEST ((if c = 0 then st.duty_input_0 else st.duty_input_1) * 255) 100

/-- Result of waterforce_read: the returned int, the value stored through the
val out-parameter (when the call succeeded), the state and completion left
behind, and the transport writes issued. -/
structure ReadResult where
  ret : Int
  val : Option Int
  state : DriverState
  completion : Completion
  writes : List (List Nat)
deriving DecidableEq, Repr

/-- waterforce_read (src/waterforce.c lines 173-207): refresh through
waterforce_get_status when the cache is past its validity window (any refresh
failure is reported as ENODATA), then serve the cached value. -/
def waterforce_read (HZ now : Int) (st : DriverState) (c : Completion) (env : Env)
    (typ : SensorType) (channel : Nat) : ReadResult :=
  if cacheExpired HZ now st.updated then
    let r := waterforce_get_status now st c env
    if r.ret < 0 then
      { ret := -ENODATA, val := none, state := r.state, completion := r.completion,
        writes := r.writes }
    else
      { ret := 0, val := some (readVal r.state typ channel), state := r.state,
        completion := r.completion, writes := r.writes }
  else
    { ret := 0, val := some (readVal st typ channel), state := st, completion := c,
      writes := [] }

/-- The capability-resolution tail of waterforce_probe (src/waterforce.c lines
455-467): the firmware query must succeed, then the RPM ceiling is selected
from the decoded version and the connected product id; a query failure aborts
the probe with its error, so the device is never brought to Ready. -/
def waterforce_probe_capability (now : Int) (st : DriverState) (env : Env)
    (product : Nat) : Except Int DriverState :=
  let r := waterforce_get_fw_ver now st env
  if r.ret < 0 then .error r.ret
  else if r.state.firmware_version ≠ FIRMWARE_F14_VER ∧
      product ≠ USB_PRODUCT_ID_WATERFORCE_3 then
    .ok { r.state with max_speed_rpm := LOWER_MAX_RPM }
  else
    .ok { r.state with max_speed_rpm := DEFAULT_MAX_RPM }

/-! Concrete environments for the witnesses and counterexamples. -/

/-- A sample firmware-version reply decoding to version 12. -/
def sampleFwReport12 : Report := fun i =>
  if i = 0 then 0x99 else if i = 1 then 0xD6
  else if i = 2 then 1 else if i = 3 then 2 else 0

/-- An environment whose transport write fails with -5 (EIO). -/
def envWriteFail : Env := { writeRet := -5, reply := none }

/-- An environment that delivers no reply before the timeout. -/
def envNoReply : Env := { writeRet := 0, reply := none }

/-- An environment that delivers the sample status reply. -/
def envStatusReply : Env := { writeRet := 0, reply := some sampleStatusReport }

/-- An environment that delivers the sample version-14 firmware reply. -/
def envFwReply : Env := { writeRet := 0, reply := some sampleFwReport }

/-- An environment that delivers the sample version-12 firmware reply. -/
def envFwReply12 : Env := { writeRet := 0, reply := some sampleFwReport12 }

end Waterforce

namespace Waterforce

/-- Claim C1: an inbound report whose first two bytes are 0x99 0xDA is decoded
as: coolant temperature byte 0xD times 1000 millidegrees, fan speed LE16 at
offset 2, pump speed LE16 at offset 5, fan duty byte 8, pump duty byte 9; the
cache timestamp is refreshed to now and the status request is completed (and
the firmware request is not). -/
theorem C1_status_report_decode (now : Int) (st : DriverState) (data : Report)
    (h0 : (data 0).val = 0x99) (h1 : (data 1).val = 0xDA) :
    waterforce_raw_event now st data =
      { state := { st with
          temp_input := ((data 0xD).val * 1000 : Int),
          speed_input_0 := (data 0x2).val + 256 * (data 0x3).val,
          speed_input_1 := (data 0x5).val + 256 * (data 0x6).val,
          duty_input_0 := (data 0x8).val,
          duty_input_1 := (data 0x9).val,
          updated := now },
        fw_completed := false, status_completed := true } := by
  have hne : ¬ ((data 0).val = 0x99 ∧ (data 1).val = 0xD6) := by
    rintro ⟨-, h⟩; rw [h1] at h; exact absurd h (by decide)
  have hyes : (data 0).val = 0x99 ∧ (data 1).val = 0xDA := ⟨h0, h1⟩
  rw [waterforce_raw_event, if_neg hne, if_neg (not_not_intro hyes)]
  have hf : ∀ k : Nat, (data k).val + 256 * (data (k + 1)).val < 65536 := by
    intro k
    have ha := (data k).isLt
    have hb := (data (k + 1)).isLt
    omega
  simp only [get_unaligned_le16, WATERFORCE_FAN_SPEED, WATERFORCE_PUMP_SPEED,
    WATERFORCE_TEMP_SENSOR, WATERFORCE_FAN_DUTY, WATERFORCE_PUMP_DUTY]
  rw [Nat.mod_eq_of_lt (hf 2), Nat.mod_eq_of_lt (hf 5)]

/-- Witness for C1 at a concrete status report. -/
theorem C1_status_report_decode_witness :
    waterforce_raw_event 7 zeroState sampleStatusReport =
      { state := { temp_input := 33000, speed_input_0 := 0x1234, speed_input_1 := 0x5678,
                   duty_input_0 := 55, duty_input_1 := 60,
                   firmware_version := 0, max_speed_rpm := 0, updated := 7 },
        fw_completed := false, status_completed := true } :=
  (C1_status_report_decode 7 zeroState sampleStatusReport (by decide) (by decide)).trans
    (by decide)

/-- Claim C5: a firmware-version reply (0x99 0xD6) stores version
byte 2 times 10 plus byte 3, completes only the firmware request, and leaves
every sensor-cache field untouched; conversely a status reply (0x99 0xDA)
never completes the firmware wait. -/
theorem C5_fw_report_correlation (now : Int) (st : DriverState) (data data' : Report)
    (h0 : (data 0).val = 0x99) (h1 : (data 1).val = 0xD6)
    (_h0' : (data' 0).val = 0x99) (h1' : (data' 1).val = 0xDA) :
    waterforce_raw_event now st data =
      { state := { st with
          firmware_version := ((data 2).val * 10 + (data 3).val : Int) },
        fw_completed := true, status_completed := false } ∧
    (waterforce_raw_event now st data').fw_completed = false := by
  constructor
  · rw [waterforce_raw_event, if_pos ⟨h0, h1⟩]
    rfl
  · have hne : ¬ ((data' 0).val = 0x99 ∧ (data' 1).val = 0xD6) := by
      rintro ⟨-, h⟩; rw [h1'] at h; exact absurd h (by decide)
    rw [waterforce_raw_event, if_neg hne]
    by_cases hs : (data' 0).val = 0x99 ∧ (data' 1).val = 0xDA
    · rw [if_neg (not_not_intro hs)]
    · rw [if_pos hs]

/-- Witness for C5 at concrete firmware and status reports. -/
theorem C5_fw_report_correlation_witness :
    waterforce_raw_event 7 zeroState sampleFwReport =
      { state := { zeroState with firmware_version := 14 },
        fw_completed := true, status_completed := false } ∧
    (waterforce_raw_event 7 zeroState sampleStatusReport).fw_completed = false := by
  have h := C5_fw_report_correlation 7 zeroState sampleFwReport sampleStatusReport
    (by decide) (by decide) (by decide) (by decide)
  exact ⟨h.1.trans (by decide), h.2⟩

/-- Claim C7: a report matching neither opcode leaves the whole state (sensor
snapshot, firmware version, timestamp) unchanged and completes nothing. -/
theorem C7_unrecognized_report_frame (now : Int) (st : DriverState) (data : Report)
    (hfw : ¬ ((data 0).val = 0x99 ∧ (data 1).val = 0xD6))
    (hst : ¬ ((data 0).val = 0x99 ∧ (data 1).val = 0xDA)) :
    waterforce_raw_event now st data =
      { state := st, fw_completed := false, status_completed := false } := by
  rw [waterforce_raw_event, if_neg hfw, if_pos hst]

/-- Witness for C7 at a concrete unrecognized report. -/
theorem C7_unrecognized_report_frame_witness :
    waterforce_raw_event 7 zeroState sampleBadReport =
      { state := zeroState, fw_completed := false, status_completed := false } :=
  C7_unrecognized_report_frame 7 zeroState sampleBadReport (by decide) (by decide)

/-- Claim C8: for reference-temperature values in 0..255 the encoder puts the
value as the single byte at offset 3 of the command, so reading that offset
back yields the original value; out-of-range values are rejected with EINVAL
and produce no transport write. -/
theorem C8_set_cpu_temp_roundtrip (val : Int) :
    (0 ≤ val → val ≤ 255 →
      waterforce_set_cpu_temp val = .ok (set_cpu_temp_cmd_template.set 3 val.toNat) ∧
      (readByte (set_cpu_temp_cmd_template.set 3 val.toNat) 3 : Int) = val) ∧
    ((val < 0 ∨ val > 255) →
      waterforce_set_cpu_temp val = .error (-EINVAL) ∧
      waterforce_set_cpu_temp_writes val = []) := by
  constructor
  · intro h0 h255
    have hmod : val % 256 = val := Int.emod_eq_of_lt h0 (by omega)
    have hbyte : readByte (set_cpu_temp_cmd_template.set 3 val.toNat) 3 = val.toNat := rfl
    constructor
    · rw [waterforce_set_cpu_temp, if_neg (by omega), toU8, hmod]
      rfl
    · rw [hbyte]
      omega
  · intro hout
    have h : waterforce_set_cpu_temp val = .error (-EINVAL) := by
      rw [waterforce_set_cpu_temp, if_pos hout]
    refine ⟨h, ?_⟩
    rw [waterforce_set_cpu_temp_writes, h]

/-- Witness for C8 at the in-range value 100 and the out-of-range value 300. -/
theorem C8_set_cpu_temp_roundtrip_witness :
    waterforce_set_cpu_temp 100 = .ok [0x99, 0xE0, 0, 100, 0x20, 0x05, 0x05, 0x10, 0x30] ∧
    (readByte [0x99, 0xE0, 0, 100, 0x20, 0x05, 0x05, 0x10, 0x30] 3 : Int) = 100 ∧
    waterforce_set_cpu_temp 300 = .error (-22) ∧
    waterforce_set_cpu_temp_writes 300 = [] := by
  have hin := (C8_set_cpu_temp_roundtrip 100).1 (by decide) (by decide)
  have hout := (C8_set_cpu_temp_roundtrip 300).2 (by decide)
  exact ⟨hin.1.trans (by rfl), by decide, hout.1.trans (by rfl), hout.2⟩

/-- The BE16 write of a value below 2^16 reads back as that value. -/
theorem be16_split_recombine (v : Nat) (h : v < 65536) :
    v / 256 % 256 * 256 + v % 256 = v := by omega

/-- toU16 always produces a value below 2^16. -/
theorem toU16_lt (v : Int) : toU16 v < 65536 := by
  simp only [toU16]
  omega

set_option maxHeartbeats 1000000 in
/-- The shape of the buffer waterforce_set_fan_speed builds, as a literal:
the template with the split channel selector at offsets 2-3 and the two target
bytes at offsets 5-6, 8-9, 11-12 and 14-15. -/
theorem encode_rpm_cmd_eq (channel val : Int) :
    encode_rpm_cmd channel val =
      [0x99, 0xE6,
       if channel = 0 then 1 else 4, if channel = 0 then 1 else 2,
       0, toU16 val / 256 % 256, toU16 val % 256, 0x1E,
       toU16 val / 256 % 256, toU16 val % 256, 0x32,
       toU16 val / 256 % 256, toU16 val % 256, 0x41,
       toU16 val / 256 % 256, toU16 val % 256] := rfl

set_option maxRecDepth 8000 in
/-- Claim C4: for targets in MIN_FAN_RPM..max_speed_rpm, waterforce_set_fan_speed
succeeds and the built buffer carries the same BE16 target value at offsets 5,
8, 11 and 14 (equal to the target itself whenever it fits 16 bits, which every
realistic ceiling guarantees) and the channel selector 0x0101 (channel 0, fan)
or 0x0402 (channel 1, pump) as a BE16 at offsets 2-3; out-of-range targets
yield EINVAL and no transport write is attempted. -/
theorem C4_set_fan_speed_encoding (max_speed_rpm channel val : Int) :
    (MIN_FAN_RPM ≤ val → val ≤ max_speed_rpm →
      waterforce_set_fan_speed max_speed_rpm channel val = .ok (encode_rpm_cmd channel val) ∧
      get_unaligned_be16 (encode_rpm_cmd channel val) 5 = toU16 val ∧
      get_unaligned_be16 (encode_rpm_cmd channel val) 8 = toU16 val ∧
      get_unaligned_be16 (encode_rpm_cmd channel val) 11 = toU16 val ∧
      get_unaligned_be16 (encode_rpm_cmd channel val) 14 = toU16 val ∧
      (val ≤ 65535 → (toU16 val : Int) = val) ∧
      (channel = 0 → get_unaligned_be16 (encode_rpm_cmd channel val) 2 = 0x0101) ∧
      (channel = 1 → get_unaligned_be16 (encode_rpm_cmd channel val) 2 = 0x0402)) ∧
    ((val < MIN_FAN_RPM ∨ val > max_speed_rpm) →
      waterforce_set_fan_speed max_speed_rpm channel val = .error (-EINVAL) ∧
      waterforce_set_fan_speed_writes max_speed_rpm channel val = []) := by
  have hv := toU16_lt val
  have hlist := encode_rpm_cmd_eq channel val
  constructor
  · intro hlo hhi
    have hlo' : (750 : Int) ≤ val := hlo
    have hok : waterforce_set_fan_speed max_speed_rpm channel val =
        .ok (encode_rpm_cmd channel val) := by
      rw [waterforce_set_fan_speed, if_neg (by omega)]
    have h5 : get_unaligned_be16 (encode_rpm_cmd channel val) 5 =
        toU16 val / 256 % 256 * 256 + toU16 val % 256 := by rw [hlist]; rfl
    have h8 : get_unaligned_be16 (encode_rpm_cmd channel val) 8 =
        toU16 val / 256 % 256 * 256 + toU16 val % 256 := by rw [hlist]; rfl
    have h11 : get_unaligned_be16 (encode_rpm_cmd channel val) 11 =
        toU16 val / 256 % 256 * 256 + toU16 val % 256 := by rw [hlist]; rfl
    have h14 : get_unaligned_be16 (encode_rpm_cmd channel val) 14 =
        toU16 val / 256 % 256 * 256 + toU16 val % 256 := by rw [hlist]; rfl
    refine ⟨hok,
      h5.trans (be16_split_recombine _ hv), h8.trans (be16_split_recombine _ hv),
      h11.trans (be16_split_recombine _ hv), h14.trans (be16_split_recombine _ hv),
      ?_, ?_, ?_⟩
    · intro h16
      simp only [toU16]
      omega
    · intro hc
      subst hc
      rw [encode_rpm_cmd_eq]
      rfl
    · intro hc
      subst hc
      rw [encode_rpm_cmd_eq]
      rfl
  · intro hout
    have h : waterforce_set_fan_speed max_speed_rpm channel val = .error (-EINVAL) := by
      rw [waterforce_set_fan_speed, if_pos hout]
    refine ⟨h, ?_⟩
    rw [waterforce_set_fan_speed_writes, h]

/-- Witness for C4 at ceiling 3200: the in-range target 1500 on the fan channel
and the out-of-range target 100. -/
theorem C4_set_fan_speed_encoding_witness :
    waterforce_set_fan_speed 3200 0 1500 = .ok (encode_rpm_cmd 0 1500) ∧
    get_unaligned_be16 (encode_rpm_cmd 0 1500) 5 = 1500 ∧
    get_unaligned_be16 (encode_rpm_cmd 0 1500) 14 = 1500 ∧
    get_unaligned_be16 (encode_rpm_cmd 0 1500) 2 = 0x0101 ∧
    waterforce_set_fan_speed 3200 0 100 = .error (-22) ∧
    waterforce_set_fan_speed_writes 3200 0 100 = [] := by
  have hin := (C4_set_fan_speed_encoding 3200 0 1500).1 (by decide) (by decide)
  have hout := (C4_set_fan_speed_encoding 3200 0 100).2 (by decide)
  refine ⟨hin.1, hin.2.1.trans (by decide), hin.2.2.2.2.1.trans (by decide),
    hin.2.2.2.2.2.2.1 rfl, hout.1.trans (by rfl), hout.2⟩

set_option maxRecDepth 8000 in
/-- Claim C10: waterforce_set_fan_speed never rejects a channel value; channel
0 selects the fan code 0x0101 and every other channel value selects the pump
code 0x0402 (split over offsets 2 and 3). -/
theorem C10_channel_selection (max_speed_rpm channel val : Int)
    (hlo : MIN_FAN_RPM ≤ val) (hhi : val ≤ max_speed_rpm) :
    waterforce_set_fan_speed max_speed_rpm channel val = .ok (encode_rpm_cmd channel val) ∧
    (channel ≠ 0 →
      readByte (encode_rpm_cmd channel val) 2 = 0x04 ∧
      readByte (encode_rpm_cmd channel val) 3 = 0x02) ∧
    (channel = 0 →
      readByte (encode_rpm_cmd channel val) 2 = 0x01 ∧
      readByte (encode_rpm_cmd channel val) 3 = 0x01) := by
  have h2 : readByte (encode_rpm_cmd channel val) 2 =
      if channel = 0 then 1 else 4 := by rw [encode_rpm_cmd_eq]; rfl
  have h3 : readByte (encode_rpm_cmd channel val) 3 =
      if channel = 0 then 1 else 2 := by rw [encode_rpm_cmd_eq]; rfl
  refine ⟨by rw [waterforce_set_fan_speed, if_neg (by omega)], ?_, ?_⟩
  · intro hc
    rw [h2, h3, if_neg hc, if_neg hc]
    exact ⟨rfl, rfl⟩
  · intro hc
    rw [h2, h3, if_pos hc, if_pos hc]
    exact ⟨rfl, rfl⟩

/-- Witness for C10 at the out-of-set channel value 7 and at channel 0. -/
theorem C10_channel_selection_witness :
    waterforce_set_fan_speed 3200 7 1500 = .ok (encode_rpm_cmd 7 1500) ∧
    readByte (encode_rpm_cmd 7 1500) 2 = 0x04 ∧
    readByte (encode_rpm_cmd 7 1500) 3 = 0x02 ∧
    readByte (encode_rpm_cmd 0 1500) 2 = 0x01 ∧
    readByte (encode_rpm_cmd 0 1500) 3 = 0x01 := by
  have h7 := C10_channel_selection 3200 7 1500 (by decide) (by decide)
  have h0 := C10_channel_selection 3200 0 1500 (by decide) (by decide)
  have hp := h7.2.1 (by decide)
  have hf := h0.2.2 rfl
  exact ⟨h7.1, hp.1, hp.2, hf.1, hf.2⟩

/-- Claim C3: after capability resolution, max_speed_rpm is DEFAULT_MAX_RPM
(3200) when the decoded firmware version is 14 or the product is the EX 360
variant (0x7a53), and LOWER_MAX_RPM (2800) in every other combination; a
failed firmware query aborts the probe with its error, so the device is not
brought to Ready. -/
theorem C3_capability_resolution (now : Int) (st : DriverState) (env : Env)
    (product : Nat) :
    ((waterforce_get_fw_ver now st env).ret < 0 →
      waterforce_probe_capability now st env product =
        .error (waterforce_get_fw_ver now st env).ret) ∧
    (0 ≤ (waterforce_get_fw_ver now st env).ret →
      ((waterforce_get_fw_ver now st env).state.firmware_version = FIRMWARE_F14_VER ∨
          product = USB_PRODUCT_ID_WATERFORCE_3 →
        waterforce_probe_capability now st env product =
          .ok { (waterforce_get_fw_ver now st env).state with
                max_speed_rpm := DEFAULT_MAX_RPM }) ∧
      ((waterforce_get_fw_ver now st env).state.firmware_version ≠ FIRMWARE_F14_VER →
          product ≠ USB_PRODUCT_ID_WATERFORCE_3 →
        waterforce_probe_capability now st env product =
          .ok { (waterforce_get_fw_ver now st env).state with
                max_speed_rpm := LOWER_MAX_RPM })) := by
  refine ⟨?_, ?_⟩
  · intro h
    rw [waterforce_probe_capability]
    rw [if_pos h]
  · intro hge
    have hnot : ¬ (waterforce_get_fw_ver now st env).ret < 0 := not_lt.mpr hge
    constructor
    · intro hor
      rw [waterforce_probe_capability, if_neg hnot, if_neg]
      rintro ⟨hv, hp⟩
      rcases hor with hv' | hp'
      · exact hv hv'
      · exact hp hp'
    · intro hv hp
      rw [waterforce_probe_capability, if_neg hnot, if_pos ⟨hv, hp⟩]

/-- Witness for C3: the sample version-14 reply yields the 3200 ceiling, the
version-12 reply on a non-EX-360 product yields 2800, and a transport failure
aborts the probe. -/
theorem C3_capability_resolution_witness :
    waterforce_probe_capability 0 zeroState envFwReply 0x7a4d =
      .ok { zeroState with firmware_version := 14, max_speed_rpm := 3200 } ∧
    waterforce_probe_capability 0 zeroState envFwReply12 0x7a4d =
      .ok { zeroState with firmware_version := 12, max_speed_rpm := 2800 } ∧
    waterforce_probe_capability 0 zeroState envWriteFail 0x7a4d = .error (-5) := by
  have h14 := (C3_capability_resolution 0 zeroState envFwReply 0x7a4d).2
    (by decide) |>.1 (Or.inl (by decide))
  have h12 := (C3_capability_resolution 0 zeroState envFwReply12 0x7a4d).2
    (by decide) |>.2 (by decide) (by decide)
  have hf := (C3_capability_resolution 0 zeroState envWriteFail 0x7a4d).1 (by decide)
  exact ⟨h14.trans (by rfl), h12.trans (by rfl), hf.trans (by rfl)⟩

/-- Every call of waterforce_get_status issues exactly the one status-query
transport write, on every control path. -/
theorem get_status_writes (now : Int) (st : DriverState) (c : Completion) (env : Env) :
    (waterforce_get_status now st c env).writes = [get_status_cmd] := by
  rcases env with ⟨w, reply⟩
  by_cases hw : w < 0
  · simp [waterforce_get_status, hw]
  · cases reply with
    | none => simp [waterforce_get_status, hw]
    | some data =>
        simp only [waterforce_get_status, hw, if_false]
        by_cases hd : (waterforce_raw_event now st data).status_completed
        · simp [hd, reinit_completion]
        · simp [hd, reinit_completion]

/-- Counterexample to C2 as stated: with HZ = 1000, a cache whose timestamp is
exactly 2 seconds (2000 jiffies) old is still treated as valid although
now - timestamp < 2 seconds fails; and a read in the very jiffy in which the
probe initialized the timestamp finds the cache valid and serves the
undecoded zero snapshot without any transport write. -/
theorem C2_counterexample :
    cacheExpired 1000 2000 0 = false ∧
    ¬ ((2000 : Int) - 0 < STATUS_VALIDITY * 1000) ∧
    cacheExpired 1000 0 (probeInitUpdated 1000 0) = false ∧
    waterforce_read 1000 0 { zeroState with updated := probeInitUpdated 1000 0 }
        { done := false } envNoReply .temp 0 =
      { ret := 0, val := some 0,
        state := { zeroState with updated := probeInitUpdated 1000 0 },
        completion := { done := false }, writes := [] } := by
  refine ⟨by decide, by decide, by decide, ?_⟩
  have h : cacheExpired 1000 0 (probeInitUpdated 1000 0) = false := by decide
  rw [waterforce_read]
  rw [show ({ zeroState with updated := probeInitUpdated 1000 0 } : DriverState).updated =
    probeInitUpdated 1000 0 from rfl, h]
  rfl

/-- Claim C2 (amended): the cached snapshot is valid iff now - timestamp ≤ 2
seconds, the boundary instant included; the probe initializes the timestamp 2
seconds in the past, so a read at any strictly later jiffy finds the cache
expired (a read in the same jiffy still finds it valid); a read that finds
the cache valid returns the cached value and issues no transport write; a
read that finds it expired issues exactly one status-query transport
write before returning. -/
theorem C2_cache_validity (HZ now updated now0 now1 : Int) (st : DriverState)
    (c : Completion) (env : Env) (typ : SensorType) (channel : Nat) :
    (cacheExpired HZ now updated = false ↔ now - updated ≤ STATUS_VALIDITY * HZ) ∧
    (now0 < now1 → cacheExpired HZ now1 (probeInitUpdated HZ now0) = true) ∧
    (cacheExpired HZ now st.updated = false →
      waterforce_read HZ now st c env typ channel =
        { ret := 0, val := some (readVal st typ channel), state := st,
          completion := c, writes := [] }) ∧
    (cacheExpired HZ now st.updated = true →
      (waterforce_read HZ now st c env typ channel).writes = [get_status_cmd]) := by
  refine ⟨?_, ?_, ?_, ?_⟩
  · simp only [cacheExpired, time_after, STATUS_VALIDITY, decide_eq_false_iff_not, not_lt]
    omega
  · intro h
    simp only [cacheExpired, time_after, probeInitUpdated, STATUS_VALIDITY,
      decide_eq_true_eq]
    omega
  · intro h
    rw [waterforce_read, h]
    rfl
  · intro h
    rw [waterforce_read, h]
    simp only [if_true]
    by_cases hr : (waterforce_get_status now st c env).ret < 0
    · rw [if_pos hr]
      exact get_status_writes now st c env
    · rw [if_neg hr]
      exact get_status_writes now st c env

/-- Witness for C2 (amended) at HZ = 1000: a valid-cache read serving the
cached value with no write, an expired-cache read issuing the one status
query, and the expiry of the probe-installed timestamp one jiffy later. -/
theorem C2_cache_validity_witness :
    (cacheExpired 1000 1500 0 = false ↔ (1500 : Int) - 0 ≤ STATUS_VALIDITY * 1000) ∧
    cacheExpired 1000 3001 (probeInitUpdated 1000 3000) = true ∧
    waterforce_read 1000 1500 zeroState { done := false } envNoReply .fan 0 =
      { ret := 0, val := some 0, state := zeroState, completion := { done := false },
        writes := [] } ∧
    (waterforce_read 1000 5000 zeroState { done := false } envStatusReply .fan 0).writes =
      [get_status_cmd] := by
  have h := C2_cache_validity 1000 1500 0 3000 3001 zeroState { done := false }
    envNoReply .fan 0
  have h2 := C2_cache_validity 1000 5000 0 3000 3001 zeroState { done := false }
    envStatusReply .fan 0
  refine ⟨h.1, h.2.1 (by decide), (h.2.2.1 (by decide)).trans (by decide),
    h2.2.2.2 (by decide)⟩

/-- Counterexample to C6 as stated: with an expired cache and the transport
write failing with -5 (EIO), waterforce_read returns -ENODATA (-61) rather
than the transport error: the read path does not surface transport errors to
its caller. -/
theorem C6_counterexample :
    envWriteFail.writeRet = -5 ∧
    (waterforce_read 1000 5000 zeroState { done := false } envWriteFail .temp 0).ret =
      -61 ∧
    (-61 : Int) ≠ -5 := by
  refine ⟨by decide, ?_, by decide⟩
  rfl

/-- Claim C6 (amended): a failed transport write surfaces its error from
waterforce_get_status and waterforce_get_fw_ver to their immediate callers
and aborts capability resolution with that error, but waterforce_read maps
every refresh failure (transport error as well as timeout) to ENODATA; when
no matching reply arrives within the 2-second window the requests return
ENODATA; in these failure cases the cached snapshot and timestamp are left
untouched; and the status path re-arms its completion on entry, so its
outcome is independent of any stale completion state, leaving the correlator
ready for the next request. -/
theorem C6_error_propagation (HZ now : Int) (st : DriverState) (c c' : Completion)
    (env : Env) (typ : SensorType) (channel : Nat) :
    (env.writeRet < 0 →
      (waterforce_get_status now st c env).ret = env.writeRet ∧
      (waterforce_get_status now st c env).state = st ∧
      (waterforce_get_fw_ver now st env).ret = env.writeRet ∧
      (waterforce_get_fw_ver now st env).state = st ∧
      (∀ product, waterforce_probe_capability now st env product = .error env.writeRet)) ∧
    (0 ≤ env.writeRet → env.reply = none →
      (waterforce_get_status now st c env).ret = -ENODATA ∧
      (waterforce_get_status now st c env).state = st ∧
      (waterforce_get_fw_ver now st env).ret = -ENODATA ∧
      (waterforce_get_fw_ver now st env).state = st) ∧
    (cacheExpired HZ now st.updated = true →
      (waterforce_get_status now st c env).ret < 0 →
      (waterforce_read HZ now st c env typ channel).ret = -ENODATA ∧
      (waterforce_read HZ now st c env typ channel).state =
        (waterforce_get_status now st c env).state) ∧
    waterforce_get_status now st c env = waterforce_get_status now st c' env := by
  refine ⟨?_, ?_, ?_, ?_⟩
  · intro h
    refine ⟨?_, ?_, ?_, ?_, ?_⟩
    · simp [waterforce_get_status, h]
    · simp [waterforce_get_status, h]
    · simp [waterforce_get_fw_ver, h]
    · simp [waterforce_get_fw_ver, h]
    · intro product
      have hr : (waterforce_get_fw_ver now st env).ret = env.writeRet := by
        simp [waterforce_get_fw_ver, h]
      rw [waterforce_probe_capability, if_pos (by rw [hr]; exact h), hr]
  · intro hge hnone
    have hw : ¬ env.writeRet < 0 := not_lt.mpr hge
    refine ⟨?_, ?_, ?_, ?_⟩ <;>
      simp [waterforce_get_status, waterforce_get_fw_ver, hw, hnone]
  · intro hexp hret
    rw [waterforce_read, hexp]
    simp only [if_true]
    rw [if_pos hret]
    exact ⟨rfl, rfl⟩
  · rfl

/-- Witness for C6 (amended) at concrete failing environments. -/
theorem C6_error_propagation_witness :
    (waterforce_get_status 0 zeroState { done := true } envWriteFail).ret = -5 ∧
    waterforce_probe_capability 0 zeroState envWriteFail 0x7a4d = .error (-5) ∧
    (waterforce_get_fw_ver 0 zeroState envNoReply).ret = -61 ∧
    (waterforce_read 1000 5000 zeroState { done := false } envNoReply .temp 0).ret =
      -61 ∧
    waterforce_get_status 0 zeroState { done := true } envNoReply =
      waterforce_get_status 0 zeroState { done := false } envNoReply := by
  have h1 := C6_error_propagation 1000 0 zeroState { done := true } { done := false }
    envWriteFail .temp 0
  have h2 := C6_error_propagation 1000 5000 zeroState { done := false } { done := false }
    envNoReply .temp 0
  have h3 := C6_error_propagation 1000 0 zeroState { done := true } { done := false }
    envNoReply .temp 0
  have hfail := h1.1 (by decide)
  have hnone := h2.2.1 (by decide) rfl
  have hread := h2.2.2.1 (by decide) (by decide)
  exact ⟨hfail.1.trans (by decide), (hfail.2.2.2.2 0x7a4d).trans (by rfl),
    hnone.2.2.1.trans (by decide), hread.1.trans (by decide), h3.2.2.2⟩

/-- Running the whole status branch of waterforce_raw_event step by step in
program order reproduces the state the atomic description gives, with the
completion signalled. -/
theorem runClassifier_statusBranch (now : Int) (st : DriverState) (data : Report)
    (h0 : (data 0).val = 0x99) (h1 : (data 1).val = 0xDA) :
    runClassifier now data { state := st, signalled := false } statusBranchProgram =
      { state := (waterforce_raw_event now st data).state, signalled := true } := by
  have hne : ¬ ((data 0).val = 0x99 ∧ (data 1).val = 0xD6) := by
    rintro ⟨-, h⟩; rw [h1] at h; exact absurd h (by decide)
  rw [waterforce_raw_event, if_neg hne, if_neg (not_not_intro ⟨h0, h1⟩)]
  rfl

/-- Counterexample to C9 as stated: on the sample status report (previous
timestamp 0, jiffies 7), the observation at the moment the status completion
is signalled still carries the stale timestamp 0, while the completed branch
carries the fresh timestamp 7: the cache-timestamp refresh is ordered after
the wake signal, not before it. -/
theorem C9_counterexample :
    (obsAtStatusSignal 7 sampleStatusReport zeroState).signalled = true ∧
    (obsAtStatusSignal 7 sampleStatusReport zeroState).state.updated = 0 ∧
    (runClassifier 7 sampleStatusReport { state := zeroState, signalled := false }
        statusBranchProgram).state.updated = 7 := by decide

/-- Claim C9 (amended): in the status branch of the classifier every snapshot
store (temperature, both speeds, both duties) is ordered before the
completion signal, so a reader woken by the signal observes the snapshot that
caused the wake; but the cache-timestamp refresh is ordered after the signal,
so at the moment of the wake the timestamp still holds its previous value,
and only the completed branch carries the fresh one. -/
theorem C9_decode_precedes_signal (now : Int) (st : DriverState) (data : Report)
    (h0 : (data 0).val = 0x99) (h1 : (data 1).val = 0xDA) :
    obsAtStatusSignal now data st =
      { state := { st with
          temp_input := ((data 0xD).val * 1000 : Int),
          speed_input_0 := get_unaligned_le16 data 0x2 % 65536,
          speed_input_1 := get_unaligned_le16 data 0x5 % 65536,
          duty_input_0 := (data 0x8).val,
          duty_input_1 := (data 0x9).val },
        signalled := true } ∧
    (obsAtStatusSignal now data st).state.updated = st.updated ∧
    (runClassifier now data { state := st, signalled := false }
        statusBranchProgram).state = (waterforce_raw_event now st data).state ∧
    (waterforce_raw_event now st data).state.updated = now := by
  refine ⟨rfl, rfl, congrArg ClassifierObs.state
    (runClassifier_statusBranch now st data h0 h1), ?_⟩
  have hne : ¬ ((data 0).val = 0x99 ∧ (data 1).val = 0xD6) := by
    rintro ⟨-, h⟩; rw [h1] at h; exact absurd h (by decide)
  rw [waterforce_raw_event, if_neg hne, if_neg (not_not_intro ⟨h0, h1⟩)]

/-- Witness for C9 (amended) at the sample status report. -/
theorem C9_decode_precedes_signal_witness :
    obsAtStatusSignal 7 sampleStatusReport zeroState =
      { state := { zeroState with
          temp_input := 33000, speed_input_0 := 0x1234, speed_input_1 := 0x5678,
          duty_input_0 := 55, duty_input_1 := 60 },
        signalled := true } ∧
    (waterforce_raw_event 7 zeroState sampleStatusReport).state.updated = 7 := by
  have h := C9_decode_precedes_signal 7 zeroState sampleStatusReport
    (by decide) (by decide)
  exact ⟨h.1.trans (by decide), h.2.2.2⟩

end Waterforce
